import Mathlib

/-!
Verification of the `products` REST API (a Django REST Framework viewset,
`src/products/views.py`) against its natural-language specification.

The viewset is a thin controller over a relational `Product` record.  The
controller logic of `views.py` is embedded directly; the parts of the
repository that `views.py` imports but that are not present under `src/`
(the `Product` model, the `ProductSerializer`, and the declaratively
configured framework backends: filtering, search, ordering, page caching,
throttling) are modelled from the specification, as marked on each
definition.
-/

/-- The Product record. Modelled from the spec: `src/products/models.py` is
not in the sources; the spec's data-model section gives the fields
id (unique, server-assigned), name (text), description (text),
price (numeric), stock (integer), created_at (timestamp). -/
structure Product where
  id : Nat
  name : String
  description : String
  price : Int
  stock : Int
  created_at : Nat
deriving DecidableEq

/-- The wire representation of a product. Modelled from the spec:
`src/products/serializers.py` is not in the sources; the spec's
external-interface section gives a JSON object with fields
id, name, description, price, stock, created_at. -/
structure SerializedProduct where
  id : Nat
  name : String
  description : String
  price : Int
  stock : Int
  created_at : Nat
deriving DecidableEq

/-- Serialization of a product to its wire representation
(`ProductSerializer`, modelled from the spec as a field-for-field map). -/
def serialize (p : Product) : SerializedProduct :=
  { id := p.id, name := p.name, description := p.description,
    price := p.price, stock := p.stock, created_at := p.created_at }

/-- A Python value as stored in the generic key-value cache: `cache.get`
returns `None` on a miss, and the code branches on Python truthiness
(`if cached_data:`). `pyNone` and the empty string are falsy; a serialized
product (a non-empty dict) is truthy. -/
inductive CVal where
  | pyNone : CVal
  | pyStr : String → CVal
  | pyObj : SerializedProduct → CVal
deriving DecidableEq

/-- Python truthiness of a cache value. -/
def CVal.truthy : CVal → Bool
  | .pyNone => false
  | .pyStr s => !s.isEmpty
  | .pyObj _ => true

/-- The generic key-value cache (`django.core.cache.cache`): entries are
(key, value, expiry time); the most recently set entry for a key wins. -/
abbrev Cache := List (String × CVal × Nat)

/-- Cache read at time `now` (`cache.get`): the latest entry for the key,
if present and unexpired. -/
def cacheGet (c : Cache) (now : Nat) (k : String) : Option CVal :=
  match c.find? (fun e => decide (e.1 = k)) with
  | none => none
  | some e => if now < e.2.2 then some e.2.1 else none

/-- Cache write at time `now` with time-to-live `ttl` (`cache.set`). -/
def cacheSet (c : Cache) (k : String) (v : CVal) (now ttl : Nat) : Cache :=
  (k, v, now + ttl) :: c

/-- A response of the viewset. `notFound` is the 404 condition,
`throttled` the 429 condition. -/
inductive Response where
  | notFound : Response
  | payload : CVal → Response
  | listPayload : List SerializedProduct → Response
  | ack : String → Response
  | throttled : Response
deriving DecidableEq

/-- The data store, the rows of the Product table. -/
abbrev Store := List Product

/-- Row lookup by primary key (`self.get_object()`), which raises the 404
condition when no row has the requested id. -/
def lookupProduct (store : Store) (pk : Nat) : Option Product :=
  store.find? (fun p => decide (p.id = pk))

/-- The cache key built by `cached_detail`. -/
def detailKey (pk : Nat) : String :=
  "product_detail_" ++ toString pk

/-- An orderable field, from `ordering_fields = ['name', 'price', 'stock',
'created_at']` (views.py line 26). -/
inductive OrdField where
  | nameF : OrdField
  | priceF : OrdField
  | stockF : OrdField
  | createdF : OrdField
deriving DecidableEq

/-- An ordering direction. -/
inductive Dir where
  | asc : Dir
  | desc : Dir
deriving DecidableEq

/-- Parameters of a list request: exact-match filters from
`filterset_fields = ['price', 'stock', 'created_at']` (views.py line 24),
a search term for `search_fields` (line 25), and an ordering choice for
`ordering_fields` (line 26). -/
structure ListParams where
  price : Option Int
  stock : Option Int
  created_at : Option Nat
  search : Option String
  ordering : Option (OrdField × Dir)
deriving DecidableEq

/-- The list request with no parameters at all. -/
def noParams : ListParams :=
  { price := none, stock := none, created_at := none,
    search := none, ordering := none }

/-- Modelled from the spec: `DjangoFilterBackend` with
`filterset_fields = ['price', 'stock', 'created_at']` keeps exactly the
rows whose field equals every supplied filter value
("supports filtering by exact price/stock/created_at"). -/
def filterMatch (ps : ListParams) (p : Product) : Bool :=
  (match ps.price with | none => true | some v => decide (p.price = v)) &&
  (match ps.stock with | none => true | some v => decide (p.stock = v)) &&
  (match ps.created_at with | none => true | some v => decide (p.created_at = v))

/-- Whether the pattern is a leading segment of the text. -/
def leadMatch : List Char → List Char → Bool
  | [], _ => true
  | _ :: _, [] => false
  | c :: cs, d :: ds => c == d && leadMatch cs ds

/-- Whether the pattern occurs as a contiguous segment of the text. -/
def occursIn : List Char → List Char → Bool
  | pat, [] => leadMatch pat []
  | pat, d :: ds => leadMatch pat (d :: ds) || occursIn pat ds

/-- Lower-casing of a string, character by character, as a character
list. -/
def lowerChars (s : String) : List Char :=
  s.toList.map Char.toLower

/-- Modelled from the spec: the `SearchFilter` with
`search_fields = ['name', 'description']` matches a term as a
case-insensitive substring of name or of description
("Search matches a substring in name or description, case-insensitively
per framework default"). -/
def searchMatches (term : String) (p : Product) : Bool :=
  occursIn (lowerChars term) (lowerChars p.name) ||
  occursIn (lowerChars term) (lowerChars p.description)

/-- Whether a row passes the search stage of a request: vacuously true
when no search term is supplied. -/
def searchOk (ps : ListParams) (p : Product) : Bool :=
  match ps.search with
  | none => true
  | some t => searchMatches t p

/-- Comparison of two products on a single orderable field. -/
def fieldLe (f : OrdField) (a b : Product) : Prop :=
  match f with
  | .nameF => a.name ≤ b.name
  | .priceF => a.price ≤ b.price
  | .stockF => a.stock ≤ b.stock
  | .createdF => a.created_at ≤ b.created_at

instance (f : OrdField) : DecidableRel (fieldLe f) := fun a b => by
  cases f
  case nameF => exact inferInstanceAs (Decidable (a.name ≤ b.name))
  case priceF => exact inferInstanceAs (Decidable (a.price ≤ b.price))
  case stockF => exact inferInstanceAs (Decidable (a.stock ≤ b.stock))
  case createdF => exact inferInstanceAs (Decidable (a.created_at ≤ b.created_at))

/-- The order requested by an ordering parameter: the field comparison,
reversed for a descending request. -/
def ordRel (f : OrdField) (d : Dir) (a b : Product) : Prop :=
  match d with
  | .asc => fieldLe f a b
  | .desc => fieldLe f b a

instance (f : OrdField) (d : Dir) : DecidableRel (ordRel f d) := fun a b => by
  cases d
  case asc => exact inferInstanceAs (Decidable (fieldLe f a b))
  case desc => exact inferInstanceAs (Decidable (fieldLe f b a))

theorem fieldLe_total (f : OrdField) (a b : Product) :
    fieldLe f a b ∨ fieldLe f b a := by
  cases f
  case nameF => exact le_total a.name b.name
  case priceF => exact le_total a.price b.price
  case stockF => exact le_total a.stock b.stock
  case createdF => exact le_total a.created_at b.created_at

theorem fieldLe_trans (f : OrdField) {a b c : Product} :
    fieldLe f a b → fieldLe f b c → fieldLe f a c := by
  cases f
  case nameF => exact le_trans
  case priceF => exact le_trans
  case stockF => exact le_trans
  case createdF => exact le_trans

instance (f : OrdField) (d : Dir) : IsTotal Product (ordRel f d) := by
  constructor
  intro a b
  cases d
  case asc => exact fieldLe_total f a b
  case desc => exact fieldLe_total f b a

instance (f : OrdField) (d : Dir) : IsTrans Product (ordRel f d) := by
  constructor
  intro a b c hab hbc
  cases d
  case asc => exact fieldLe_trans f hab hbc
  case desc => exact fieldLe_trans f hbc hab

/-- The ascending order on primary keys used by the base queryset
`Product.objects.all().order_by('id')` (views.py line 16). -/
def idLe (a b : Product) : Prop := a.id ≤ b.id

instance : DecidableRel idLe := fun a b => Nat.decLe a.id b.id

instance : IsTotal Product idLe := ⟨fun a b => Nat.le_total a.id b.id⟩

instance : IsTrans Product idLe := ⟨fun _ _ _ => Nat.le_trans⟩

/-- The base queryset: all rows ordered by id ascending
(views.py line 16). -/
def baseQueryset (store : Store) : List Product :=
  List.insertionSort idLe store

/-- Modelled from the spec: the `OrderingFilter` with
`ordering_fields = ['name', 'price', 'stock', 'created_at']` sorts the
rows by the requested field in the requested direction, and leaves the
queryset unchanged when no ordering is requested. -/
def applyOrdering (o : Option (OrdField × Dir)) (l : List Product) :
    List Product :=
  match o with
  | none => l
  | some fd => List.insertionSort (ordRel fd.1 fd.2) l

/-- The full list pipeline of the viewset: the base queryset filtered by
`DjangoFilterBackend`, then by `SearchFilter`, then ordered by
`OrderingFilter`, in the order of `filter_backends` (views.py lines
19-23). -/
def runList (store : Store) (ps : ListParams) : List Product :=
  applyOrdering ps.ordering
    (((baseQueryset store).filter (filterMatch ps)).filter (searchOk ps))

/-- The body of the list endpoint, serializing the pipeline's rows. -/
def listBody (store : Store) (ps : ListParams) : Response :=
  .listPayload ((runList store ps).map serialize)

/-- The page cache of `cache_page(60)`: entries are (request parameters,
response, expiry time). Modelled from the spec: "response cached for 60
time units keyed by request parameters". -/
abbrev PageCache := List (ListParams × Response × Nat)

/-- Page-cache read at time `now`: the latest entry for the request
parameters, if present and unexpired. -/
def pageGet (pc : PageCache) (now : Nat) (ps : ListParams) :
    Option Response :=
  match pc.find? (fun e => decide (e.1 = ps)) with
  | none => none
  | some e => if now < e.2.2 then some e.2.1 else none

namespace ProductViewSet

/-- Embeds `ProductViewSet.cached_detail` (views.py lines 38-51): resolve
the object (404 if absent), read the cache at key `product_detail_{pk}`;
if the value read is truthy, return it; otherwise serialize the product,
cache the result for 300 time units and return it. Returns the response
together with the cache state after the call. -/
def cached_detail (store : Store) (c : Cache) (now pk : Nat) :
    Response × Cache :=
  match lookupProduct store pk with
  | none => (.notFound, c)
  | some product =>
    let key := detailKey pk
    match cacheGet c now key with
    | some v =>
      if v.truthy then (.payload v, c)
      else
        let data := serialize product
        (.payload (.pyObj data), cacheSet c key (.pyObj data) now 300)
    | none =>
      let data := serialize product
      (.payload (.pyObj data), cacheSet c key (.pyObj data) now 300)

/-- Embeds `ProductViewSet.retrieve` (views.py lines 64-67), which defers
to the framework default: resolve the object by id and return its
serialization, or the 404 condition if absent. -/
def retrieve (store : Store) (pk : Nat) : Response :=
  match lookupProduct store pk with
  | none => .notFound
  | some product => .payload (.pyObj (serialize product))

/-- The fixed acknowledgement string returned by `notify_update`
(views.py line 62). -/
def notifyMsg : String :=
  "Notificação de atualização enviada para processamento em segundo plano."

/-- Embeds `ProductViewSet.notify_update` (views.py lines 55-62): resolve
the object (404 if absent) and return the fixed acknowledgement; the task
invocation is commented out in the source, so the store and the cache are
returned unchanged. -/
def notify_update (store : Store) (c : Cache) (pk : Nat) :
    Response × Store × Cache :=
  match lookupProduct store pk with
  | none => (.notFound, store, c)
  | some _ => (.ack notifyMsg, store, c)

/-- Embeds `ProductViewSet.list` (views.py lines 30-35) under its
`cache_page(60)` decorator. Modelled from the spec where the decorator's
semantics are concerned: a cached response for the same request
parameters is served while unexpired; otherwise the body runs and its
response is cached for 60 time units. Returns the response together with
the page-cache state after the call. -/
def list (pc : PageCache) (store : Store) (now : Nat) (ps : ListParams) :
    Response × PageCache :=
  match pageGet pc now ps with
  | some r => (r, pc)
  | none =>
    let r := listBody store ps
    (r, (ps, r, now + 60) :: pc)

end ProductViewSet

/-- Modelled from the spec: the throttle check of `AnonRateThrottle`
(views.py line 28) for one anonymous caller. The caller's request history
is the list of its request times; a request at `now` is allowed when
fewer than `limit` requests fall within the last `duration` time units,
in which case it is recorded; otherwise the 429 condition is signalled
and the history is left unchanged. -/
def throttleAllow (limit duration : Nat) (history : List Nat) (now : Nat) :
    Bool × List Nat :=
  let recent := history.filter (fun t => decide (now < t + duration))
  if limit ≤ recent.length then (false, history)
  else (true, now :: recent)

/-- One endpoint of the viewset, with its request data. -/
inductive Endpoint where
  | listE : ListParams → Endpoint
  | retrieveE : Nat → Endpoint
  | cachedDetailE : Nat → Endpoint
  | notifyE : Nat → Endpoint
deriving DecidableEq

/-- The shared mutable state a request acts on: the data store, the two
caches and the anonymous caller's throttle history. -/
structure SysState where
  store : Store
  cache : Cache
  pageCache : PageCache
  history : List Nat

/-- Dispatch of an already-admitted request to its endpoint. -/
def dispatch (st : SysState) (now : Nat) : Endpoint → Response × SysState
  | .listE ps =>
    let r := ProductViewSet.list st.pageCache st.store now ps
    (r.1, { st with pageCache := r.2 })
  | .retrieveE pk => (ProductViewSet.retrieve st.store pk, st)
  | .cachedDetailE pk =>
    let r := ProductViewSet.cached_detail st.store st.cache now pk
    (r.1, { st with cache := r.2 })
  | .notifyE pk =>
    let r := ProductViewSet.notify_update st.store st.cache pk
    (r.1, { st with store := r.2.1, cache := r.2.2 })

/-- A request against the viewset: `throttle_classes` (views.py line 28)
applies the throttle check to every endpoint before dispatching. -/
def handle (limit duration : Nat) (st : SysState) (now : Nat)
    (ep : Endpoint) : Response × SysState :=
  let t := throttleAllow limit duration st.history now
  if t.1 then dispatch { st with history := t.2 } now ep
  else (.throttled, st)

/-! Sample data used by witnesses and counterexamples. -/

/-- A sample product. -/
def prodA : Product :=
  { id := 1, name := "Alpha", description := "first product",
    price := 5, stock := 2, created_at := 100 }

/-- A sample product. -/
def prodB : Product :=
  { id := 2, name := "beta", description := "second product",
    price := 7, stock := 0, created_at := 200 }

/-- A sample product. -/
def prodC : Product :=
  { id := 3, name := "Gamma", description := "cheap alpha item",
    price := 5, stock := 9, created_at := 150 }

/-- A sample store holding the three sample products out of id order. -/
def sampleStore : Store := [prodB, prodA, prodC]

/-! Helper lemmas about the list pipeline. -/

theorem mem_applyOrdering (o : Option (OrdField × Dir)) (l : List Product)
    (a : Product) : a ∈ applyOrdering o l ↔ a ∈ l := by
  cases o with
  | none => exact Iff.rfl
  | some fd => exact List.mem_insertionSort (ordRel fd.1 fd.2)

theorem mem_baseQueryset (s : Store) (a : Product) :
    a ∈ baseQueryset s ↔ a ∈ s :=
  List.mem_insertionSort idLe

theorem filterMatch_noneFilters (ps : ListParams) (hp : ps.price = none)
    (hst : ps.stock = none) (hc : ps.created_at = none) (p : Product) :
    filterMatch ps p = true := by
  simp [filterMatch, hp, hst, hc]

theorem searchOk_none (ps : ListParams) (hs : ps.search = none)
    (p : Product) : searchOk ps p = true := by
  simp [searchOk, hs]

theorem runList_noParams (store : Store) :
    runList store noParams = baseQueryset store := by
  unfold runList
  have h1 : (baseQueryset store).filter (filterMatch noParams) =
      baseQueryset store :=
    List.filter_eq_self.mpr fun a _ =>
      filterMatch_noneFilters noParams rfl rfl rfl a
  have h2 : (baseQueryset store).filter (searchOk noParams) =
      baseQueryset store :=
    List.filter_eq_self.mpr fun a _ => searchOk_none noParams rfl a
  rw [h1, h2]
  rfl

/-! Claim theorems. -/

/-- Claim C2: for every state of the data store, a list request with no
filter, search, or ordering parameters returns all Products ordered by id
ascending. -/
theorem C2_list_noParams_all_sorted (store : Store) :
    (runList store noParams).Perm store ∧
      List.Sorted idLe (runList store noParams) := by
  rw [runList_noParams]
  exact ⟨List.perm_insertionSort idLe store, List.sorted_insertionSort idLe store⟩

/-- Claim C3: for every product id absent from the data store, both
`retrieve` and `cached_detail` return the not-found response; the latter
for every cache state, including one holding an entry keyed by that id,
because `get_object` runs before the cache is consulted (the cache is
also left unchanged). -/
theorem C3_absent_id_notFound (store : Store) (c : Cache) (now pk : Nat)
    (h : lookupProduct store pk = none) :
    ProductViewSet.retrieve store pk = .notFound ∧
      ProductViewSet.cached_detail store c now pk = (.notFound, c) := by
  constructor
  · unfold ProductViewSet.retrieve
    rw [h]
  · unfold ProductViewSet.cached_detail
    rw [h]

/-- Witness for C3: id 9 is absent from the sample store, and
`cached_detail` returns not-found even though the cache holds a truthy
entry at the key `product_detail_9`. -/
theorem C3_witness :
    ProductViewSet.retrieve sampleStore 9 = .notFound ∧
      ProductViewSet.cached_detail sampleStore
        [("product_detail_9", CVal.pyStr "stale", 1000)] 0 9 =
        (.notFound, [("product_detail_9", CVal.pyStr "stale", 1000)]) :=
  C3_absent_id_notFound sampleStore
    [("product_detail_9", CVal.pyStr "stale", 1000)] 0 9 (by decide)

/-- Claim C8: for every existing product id, `notify_update` returns the
one fixed acknowledgement payload, independent of the product and the
request, and leaves the data store and the cache unchanged. -/
theorem C8_notify_update_fixed (store : Store) (c : Cache) (pk : Nat)
    (p : Product) (h : lookupProduct store pk = some p) :
    ProductViewSet.notify_update store c pk =
      (.ack ProductViewSet.notifyMsg, store, c) := by
  unfold ProductViewSet.notify_update
  rw [h]

/-- Witness for C8: `notify_update` on product id 2 of the sample store
returns the fixed acknowledgement and changes nothing. -/
theorem C8_witness :
    ProductViewSet.notify_update sampleStore [] 2 =
      (.ack ProductViewSet.notifyMsg, sampleStore, []) :=
  C8_notify_update_fixed sampleStore [] 2 prodB (by decide)

/-- Claim C10: for every existing product id, when the cache holds a
falsy value at the product's key, `cached_detail` treats it as a miss:
it re-serializes the product, overwrites the entry with the fresh value
under a 300-time-unit expiry, and returns the fresh serialization. -/
theorem C10_cached_detail_falsy_is_miss (store : Store) (c : Cache)
    (now pk : Nat) (p : Product) (v : CVal)
    (hp : lookupProduct store pk = some p)
    (hv : cacheGet c now (detailKey pk) = some v)
    (ht : v.truthy = false) :
    ProductViewSet.cached_detail store c now pk =
      (.payload (.pyObj (serialize p)),
       cacheSet c (detailKey pk) (.pyObj (serialize p)) now 300) := by
  unfold ProductViewSet.cached_detail
  rw [hp]
  simp only [hv, ht]
  simp

/-- Witness for C10: product id 1 exists, the cache holds the falsy value
`""` at `product_detail_1`, and `cached_detail` returns the fresh
serialization and overwrites the entry with a 300-unit expiry. -/
theorem C10_witness :
    ProductViewSet.cached_detail sampleStore
      [("product_detail_1", CVal.pyStr "", 1000)] 0 1 =
      (.payload (.pyObj (serialize prodA)),
       cacheSet [("product_detail_1", CVal.pyStr "", 1000)] (detailKey 1)
         (.pyObj (serialize prodA)) 0 300) :=
  C10_cached_detail_falsy_is_miss sampleStore
    [("product_detail_1", CVal.pyStr "", 1000)] 0 1 prodA (CVal.pyStr "")
    (by decide) (by decide) (by decide)

/-- Counterexample for C1: product id 1 exists and a cache entry is
present (unexpired) at its key, yet `cached_detail` does not return the
cached value, because the code tests Python truthiness rather than
presence and the stored value `""` is falsy. -/
theorem C1_counterexample :
    lookupProduct sampleStore 1 = some prodA ∧
      cacheGet [("product_detail_1", CVal.pyStr "", 1000)] 0 (detailKey 1) =
        some (CVal.pyStr "") ∧
      (ProductViewSet.cached_detail sampleStore
          [("product_detail_1", CVal.pyStr "", 1000)] 0 1).1 ≠
        Response.payload (CVal.pyStr "") := by
  refine ⟨by decide, by decide, ?_⟩
  decide

/-- Claim C1 (amended): for every existing product id, `cached_detail`
looks up the cache entry keyed by the product's id and returns the cached
value when one is present and truthy, leaving the cache unchanged; when
none is present — or the present value is falsy — it serializes the
product, stores the serialization with a 300-time-unit expiry, and
returns that same serialization. -/
theorem C1_cached_detail_behaviour (store : Store) (c : Cache)
    (now pk : Nat) (p : Product) (hp : lookupProduct store pk = some p) :
    (∀ v, cacheGet c now (detailKey pk) = some v → v.truthy = true →
        ProductViewSet.cached_detail store c now pk = (.payload v, c)) ∧
      (cacheGet c now (detailKey pk) = none →
        ProductViewSet.cached_detail store c now pk =
          (.payload (.pyObj (serialize p)),
           cacheSet c (detailKey pk) (.pyObj (serialize p)) now 300)) ∧
      (∀ v, cacheGet c now (detailKey pk) = some v → v.truthy = false →
        ProductViewSet.cached_detail store c now pk =
          (.payload (.pyObj (serialize p)),
           cacheSet c (detailKey pk) (.pyObj (serialize p)) now 300)) := by
  refine ⟨?_, ?_, ?_⟩
  · intro v hv ht
    unfold ProductViewSet.cached_detail
    rw [hp]
    simp only [hv, ht]
    simp
  · intro hv
    unfold ProductViewSet.cached_detail
    rw [hp]
    simp only [hv]
  · intro v hv ht
    unfold ProductViewSet.cached_detail
    rw [hp]
    simp only [hv, ht]
    simp

/-- Witness for C1 (amended): product id 1 exists and the cache holds a
truthy entry at its key, which `cached_detail` returns with the cache
unchanged. -/
theorem C1_witness :
    ProductViewSet.cached_detail sampleStore
      [("product_detail_1", CVal.pyObj (serialize prodC), 1000)] 0 1 =
      (.payload (CVal.pyObj (serialize prodC)),
       [("product_detail_1", CVal.pyObj (serialize prodC), 1000)]) :=
  (C1_cached_detail_behaviour sampleStore
      [("product_detail_1", CVal.pyObj (serialize prodC), 1000)] 0 1 prodA
      (by decide)).1 (CVal.pyObj (serialize prodC)) (by decide) (by decide)

/-- Claim C4: a list request that finds no unexpired cached page and a
repeated request with the same parameters issued within 60 time units of
it return identical payloads, for every intervening change to the data
store (the stale cached payload is served). -/
theorem C4_list_cached_within_60 (pc : PageCache) (store1 store2 : Store)
    (t1 t2 : Nat) (ps : ListParams) (hmiss : pageGet pc t1 ps = none)
    (ht : t2 < t1 + 60) :
    (ProductViewSet.list (ProductViewSet.list pc store1 t1 ps).2 store2 t2
        ps).1 =
      (ProductViewSet.list pc store1 t1 ps).1 := by
  unfold ProductViewSet.list
  simp only [hmiss]
  have hfind : pageGet ((ps, listBody store1 ps, t1 + 60) :: pc) t2 ps =
      some (listBody store1 ps) := by
    unfold pageGet
    rw [List.find?_cons_of_pos]
    · simp [ht]
    · simp
  simp only [hfind]

/-- Witness for C4: with an empty page cache, a list request at time 0
and a repeated one at time 30 against a changed store return identical
payloads. -/
theorem C4_witness :
    (ProductViewSet.list (ProductViewSet.list [] sampleStore 0 noParams).2
        [prodA] 30 noParams).1 =
      (ProductViewSet.list [] sampleStore 0 noParams).1 :=
  C4_list_cached_within_60 [] sampleStore [prodA] 0 30 noParams rfl
    (by decide)

/-- Claim C5: for every list request supplying exact-match filters on
price, stock, or created_at (and no search term), the returned
collection contains exactly the Products whose fields equal every
supplied filter value, and no others. -/
theorem C5_list_filters_exact (store : Store) (ps : ListParams)
    (p : Product) (hs : ps.search = none) :
    p ∈ runList store ps ↔ p ∈ store ∧ filterMatch ps p = true := by
  unfold runList
  rw [mem_applyOrdering, List.mem_filter, List.mem_filter,
    mem_baseQueryset]
  simp [searchOk_none ps hs, and_assoc]

/-- Witness for C5: filtering the sample store by price 5 keeps `prodA`
(price 5) and characterizes membership exactly. -/
theorem C5_witness :
    (prodA ∈ runList sampleStore
        { price := some 5, stock := none, created_at := none,
          search := none, ordering := none } ↔
      prodA ∈ sampleStore ∧
        filterMatch
          { price := some 5, stock := none, created_at := none,
            search := none, ordering := none } prodA = true) ∧
      prodA ∈ runList sampleStore
        { price := some 5, stock := none, created_at := none,
          search := none, ordering := none } :=
  ⟨C5_list_filters_exact sampleStore
      { price := some 5, stock := none, created_at := none,
        search := none, ordering := none } prodA rfl,
    (C5_list_filters_exact sampleStore
        { price := some 5, stock := none, created_at := none,
          search := none, ordering := none } prodA rfl).mpr
      (by refine ⟨by decide, by decide⟩)⟩

/-- Claim C6: for every list request supplying a search term (and no
exact-match filters), the returned collection contains exactly the
Products for which the term occurs as a case-insensitive substring of the
name or of the description. -/
theorem C6_list_search_membership (store : Store) (ps : ListParams)
    (t : String) (p : Product) (hp : ps.price = none)
    (hst : ps.stock = none) (hc : ps.created_at = none)
    (hs : ps.search = some t) :
    p ∈ runList store ps ↔ p ∈ store ∧ searchMatches t p = true := by
  unfold runList
  rw [mem_applyOrdering, List.mem_filter, List.mem_filter,
    mem_baseQueryset]
  simp [filterMatch_noneFilters ps hp hst hc, searchOk, hs]

/-- Witness for C6: searching the sample store for "alpha" keeps `prodC`
(description "cheap alpha item") and characterizes membership exactly. -/
theorem C6_witness :
    (prodC ∈ runList sampleStore
        { price := none, stock := none, created_at := none,
          search := some "alpha", ordering := none } ↔
      prodC ∈ sampleStore ∧ searchMatches "alpha" prodC = true) ∧
      prodC ∈ runList sampleStore
        { price := none, stock := none, created_at := none,
          search := some "alpha", ordering := none } :=
  ⟨C6_list_search_membership sampleStore
      { price := none, stock := none, created_at := none,
        search := some "alpha", ordering := none } "alpha" prodC rfl rfl
      rfl rfl,
    (C6_list_search_membership sampleStore
        { price := none, stock := none, created_at := none,
          search := some "alpha", ordering := none } "alpha" prodC rfl rfl
        rfl rfl).mpr (by refine ⟨by decide, by decide⟩)⟩

/-- Claim C7: for every list request supplying an ordering parameter over
name, price, stock, or created_at with a direction, the returned
collection is sorted by that field in that direction, and is a
permutation of the filtered rows (the ordering stage reorders rows
without adding or dropping any). -/
theorem C7_list_ordering_sorted (store : Store) (ps : ListParams)
    (f : OrdField) (d : Dir) (ho : ps.ordering = some (f, d)) :
    List.Sorted (ordRel f d) (runList store ps) ∧
      (runList store ps).Perm
        (((baseQueryset store).filter (filterMatch ps)).filter
          (searchOk ps)) := by
  unfold runList
  rw [ho]
  exact ⟨List.sorted_insertionSort (ordRel f d) _,
    List.perm_insertionSort (ordRel f d) _⟩

/-- Witness for C7: ordering the sample store by price descending yields
a sorted permutation of its rows. -/
theorem C7_witness :
    List.Sorted (ordRel OrdField.priceF Dir.desc)
        (runList sampleStore
          { price := none, stock := none, created_at := none,
            search := none,
            ordering := some (OrdField.priceF, Dir.desc) }) ∧
      (runList sampleStore
          { price := none, stock := none, created_at := none,
            search := none,
            ordering := some (OrdField.priceF, Dir.desc) }).Perm
        (((baseQueryset sampleStore).filter
            (filterMatch
              { price := none, stock := none, created_at := none,
                search := none,
                ordering := some (OrdField.priceF, Dir.desc) })).filter
          (searchOk
            { price := none, stock := none, created_at := none,
              search := none,
              ordering := some (OrdField.priceF, Dir.desc) })) :=
  C7_list_ordering_sorted sampleStore
    { price := none, stock := none, created_at := none, search := none,
      ordering := some (OrdField.priceF, Dir.desc) } OrdField.priceF
    Dir.desc rfl

/-- Claim C9: for every endpoint of the viewset, once the anonymous
caller's request history within the throttling window has reached the
configured limit, a further request receives the rate-limited (429)
response. -/
theorem C9_throttled_request_429 (limit duration : Nat) (st : SysState)
    (now : Nat)
    (h : limit ≤
      (st.history.filter (fun t => decide (now < t + duration))).length) :
    ∀ ep, (handle limit duration st now ep).1 = .throttled := by
  intro ep
  unfold handle throttleAllow
  simp [h]

/-- Witness for C9: with a limit of 2 and two requests already inside the
window, a retrieve request is throttled. -/
theorem C9_witness :
    (handle 2 60
        { store := sampleStore, cache := [], pageCache := [],
          history := [10, 20] } 30 (Endpoint.retrieveE 1)).1 =
      Response.throttled :=
  C9_throttled_request_429 2 60
    { store := sampleStore, cache := [], pageCache := [],
      history := [10, 20] } 30 (by decide) (Endpoint.retrieveE 1)
